import Mathlib

/-!
Verification of prex.py (PrEx, promoter extraction).

Shallow embedding of the identifier classifier (`decode_id`), the lookup-column
table (`id_gff3_names`), the principal-isoform validator (`validate_identifier`),
the promoter interval computation (`do_gff3_stuff`), the `Region` type with its
Python truthiness, and the per-identifier main loop. Dataframe slices become
`List.filter`, `drop_duplicates` becomes a keep-first dedup, Python exceptions
(KeyError on a missing dataframe column, UnboundLocalError on an unhandled
strand, KeyError on `id_gff3_names[None]`) become `Except.error` / `Option.none`.
-/

/-! ## Identifier kind constants (src/prex.py lines 24-28) -/

def ENST : Nat := 1

def ENSG : Nat := 2

def UCSC : Nat := 3

def REFSEQ : Nat := 4

def SYMBOL : Nat := 5

/-! ## Regular-expression matchers used by decode_id (lines 75-79).

Each Python call is `re.search(pattern, identifier)`. The first four patterns
are anchored with `^`; the SYMBOL pattern is NOT anchored, so it matches when
the pair occurs anywhere in the string. -/

/-- First `n` characters of the list exist and are ASCII digits (`[0-9]{n}`). -/
def leadingDigits : Nat → List Char → Bool
  | 0, _ => true
  | _ + 1, [] => false
  | n + 1, c :: cs => c.isDigit && leadingDigits n cs

/-- Matcher for `^ENST[0-9]{11}` (line 75). -/
def matchENST : List Char → Bool
  | a :: b :: c :: d :: rest =>
      a == 'E' && b == 'N' && c == 'S' && d == 'T' && leadingDigits 11 rest
  | _ => false

/-- Matcher for `^ENSG[0-9]{11}` (line 76). -/
def matchENSG : List Char → Bool
  | a :: b :: c :: d :: rest =>
      a == 'E' && b == 'N' && c == 'S' && d == 'G' && leadingDigits 11 rest
  | _ => false

/-- Matcher for `^uc[0-9]{3}[a-z]{3}\.` (line 77). -/
def matchUCSC : List Char → Bool
  | a :: b :: d1 :: d2 :: d3 :: l1 :: l2 :: l3 :: dot :: _ =>
      a == 'u' && b == 'c' && d1.isDigit && d2.isDigit && d3.isDigit &&
      l1.isLower && l2.isLower && l3.isLower && dot == '.'
  | _ => false

/-- Matcher for `^[NX][GM]_` (line 78). -/
def matchREFSEQ : List Char → Bool
  | a :: b :: c :: _ =>
      (a == 'N' || a == 'X') && (b == 'G' || b == 'M') && c == '_'
  | _ => false

/-- Character class `[A-Z0-9]` opening the SYMBOL pattern. -/
def symStart (c : Char) : Bool := c.isUpper || c.isDigit

/-- Matcher for the unanchored `re.search('[A-Z0-9][A-Za-z0-9]{1,}', ...)`
(line 79): true iff some position holds a `[A-Z0-9]` character immediately
followed by an `[A-Za-z0-9]` character. -/
def matchSYMBOL : List Char → Bool
  | [] => false
  | x :: xs =>
      (match xs with
       | [] => false
       | y :: _ => symStart x && y.isAlphanum) || matchSYMBOL xs

/-- `decode_id` (lines 69-82): first match wins; `none` models the
warn-and-return-None branch for an unrecognised identifier. -/
def decode_id (identifier : List Char) : Option Nat :=
  if matchENST identifier then some ENST
  else if matchENSG identifier then some ENSG
  else if matchUCSC identifier then some UCSC
  else if matchREFSEQ identifier then some REFSEQ
  else if matchSYMBOL identifier then some SYMBOL
  else none

/-- The `id_gff3_names` dict (lines 37-41), as the lookup `id_gff3_names[k]`
performed at line 242: the key there is `decode_id`'s result, so it may be
`None`; a key outside the dict (in particular `None`) is a KeyError, modelled
as `none`. -/
def id_gff3_names (k : Option Nat) : Option String :=
  if k == some ENST then some "transcript_id"
  else if k == some ENSG then some "gene_id"
  else if k == some UCSC then some "TBD"
  else if k == some REFSEQ then some "TBD"
  else if k == some SYMBOL then some "gene_name"
  else none

/-- Definition modelled from the spec section 4.1 item 5 ("any token beginning
with an uppercase letter or digit followed by one or more alphanumeric
characters"): the ANCHORED reading `^[A-Z0-9][A-Za-z0-9]+`, kept separate from
`matchSYMBOL` (the source's unanchored search) for comparison. -/
def specSymbolAnchored : List Char → Bool
  | a :: b :: _ => symStart a && b.isAlphanum
  | _ => false

/-! ## Annotation records (the GFF3 dataframe schema, spec section 3) -/

/-- One row of the annotation dataframe, with the columns the core reads.
`appris_principal` is `none` on rows where that column is null (NaN). -/
structure AnnotRecord where
  seqname : String
  start : Int
  «end» : Int
  strand : String
  feature : String
  gene_id : String
  gene_name : String
  transcript_id : String
  transcript_name : String
  appris_principal : Option String
deriving DecidableEq

/-- The columns of the dataframe; a lookup with any other name (for instance
the placeholder `TBD`) is a pandas KeyError. -/
def annotColumns : List String :=
  ["seqname", "start", "end", "strand", "feature", "gene_id", "gene_name",
   "transcript_id", "transcript_name", "appris_principal"]

/-- Value of a string-typed column of a row, `none` when the column is not a
string column. -/
def getStrColumn (r : AnnotRecord) (col : String) : Option String :=
  if col == "seqname" then some r.seqname
  else if col == "strand" then some r.strand
  else if col == "feature" then some r.feature
  else if col == "gene_id" then some r.gene_id
  else if col == "gene_name" then some r.gene_name
  else if col == "transcript_id" then some r.transcript_id
  else if col == "transcript_name" then some r.transcript_name
  else none

/-- Elementwise `annot[col] == identifier` for one row: string columns compare
by equality, the nullable `appris_principal` column compares NaN as unequal,
and the integer columns `start`/`end` compare unequal to a string (pandas
semantics). -/
def cellEqStr (r : AnnotRecord) (col identifier : String) : Bool :=
  match getStrColumn r col with
  | some v => v == identifier
  | none =>
      if col == "appris_principal" then r.appris_principal == some identifier
      else false

/-- Keep-first deduplication, the semantics of pandas `drop_duplicates`. -/
def dedupFirstAux {α : Type} [DecidableEq α] : List α → List α → List α
  | _, [] => []
  | seen, a :: l =>
      if a ∈ seen then dedupFirstAux seen l else a :: dedupFirstAux (a :: seen) l

/-- Keep-first deduplication of a list. -/
def dedupFirst {α : Type} [DecidableEq α] (l : List α) : List α :=
  dedupFirstAux [] l

/-- The slice `annot[annot[id_column]==identifier]` (line 153). -/
def geneSlice (annot : List AnnotRecord) (id_column identifier : String) :
    List AnnotRecord :=
  annot.filter (fun r => cellEqStr r id_column identifier)

/-- Lines 157-158: drop rows with null `appris_principal`, keep
`feature == 'start_codon'`, project to `(start, end)`, drop duplicates. The
length of this list is the source's `principal_count`. -/
def principalPairs (annot : List AnnotRecord) (id_column identifier : String) :
    List (Int × Int) :=
  dedupFirst ((((geneSlice annot id_column identifier).filter
      (fun r => r.appris_principal.isSome)).filter
      (fun r => r.feature == "start_codon")).map (fun r => (r.start, r.«end»)))

/-- `validate_identifier` (lines 143-176). The result carries the returned
Bool together with the warnings printed; slicing on a column that the
dataframe does not have (for example the `TBD` placeholder) raises a pandas
KeyError, modelled as `Except.error`. -/
def validate_identifier (annot : List AnnotRecord) (id_column identifier : String) :
    Except String (Bool × List String) :=
  if id_column ∈ annotColumns then
    if (geneSlice annot id_column identifier).length = 0 then
      .ok (false, ["no " ++ id_column ++ " known by this identifier: " ++ identifier])
    else if (principalPairs annot id_column identifier).length = 0 then
      .ok (false, ["no principal isoform found for " ++ identifier])
    else if (principalPairs annot id_column identifier).length > 1 then
      .ok (false, ["too many primary isoforms for " ++ identifier])
    else
      .ok (true, [])
  else .error ("KeyError: " ++ id_column)

/-! ## Region (lines 191-205) and the promoter computation (lines 178-189) -/

/-- The `Region` class: every field defaults to Python `None`, modelled as
`Option`. -/
structure Region where
  chrom : Option String
  start : Option Int
  «end» : Option Int
  name : Option String
  score : Option String
  strand : Option String
deriving DecidableEq

/-- Python truthiness of an optional string: `None` and `''` are falsy. -/
def truthyStr : Option String → Bool
  | none => false
  | some s => !(s == "")

/-- Python truthiness of an optional integer: `None` and `0` are falsy. -/
def truthyInt : Option Int → Bool
  | none => false
  | some i => !(i == 0)

/-- `Region.__bool__` (lines 199-203): `any` over the six fields. -/
def Region.toBool (r : Region) : Bool :=
  truthyStr r.chrom || truthyInt r.start || truthyInt r.«end» ||
  truthyStr r.name || truthyStr r.score || truthyStr r.strand

/-- Lines 183-189 given the first start_codon row: the strand dispatch. A
strand other than `+`/`-` leaves `bed_start`/`bed_end` unassigned, so the
`Region(...)` call raises UnboundLocalError, modelled as `none`. -/
def regionFromRow (row : AnnotRecord) (identifier : String) (up down : Int) :
    Option Region :=
  if row.strand == "+" then
    some ⟨some row.seqname, some (row.start - up), some (row.start + down),
          some identifier, some ".", some row.strand⟩
  else if row.strand == "-" then
    some ⟨some row.seqname, some (row.start - down), some (row.start + up),
          some identifier, some ".", some row.strand⟩
  else none

/-- `do_gff3_stuff` (lines 178-189): slice to `feature == 'start_codon'`, read
the first row's `start`/`seqname`/`strand` (`.values[0]`; IndexError when the
slice is empty, modelled as `none`), then compute the interval. -/
def do_gff3_stuff (principal : List AnnotRecord) (id_column identifier : String)
    (up down : Int) : Option Region :=
  match (principal.filter (fun r => r.feature == "start_codon")).head? with
  | none => none
  | some row => regionFromRow row identifier up down

/-! ## The main loop (lines 238-261) -/

/-- One row of the `principals` frame built at line 235 (five projected
columns). -/
structure PrincipalRow where
  gene_name : String
  gene_id : String
  transcript_name : String
  transcript_id : String
  appris_principal : Option String
deriving DecidableEq

/-- Line 235: drop rows with null `appris_principal`, project to the five
columns, drop duplicates. -/
def principalsOf (annot : List AnnotRecord) : List PrincipalRow :=
  dedupFirst ((annot.filter (fun r => r.appris_principal.isSome)).map
    (fun r => ⟨r.gene_name, r.gene_id, r.transcript_name, r.transcript_id,
               r.appris_principal⟩))

/-- Value of a column of the `principals` frame. -/
def principalCell (p : PrincipalRow) (col : String) : Option String :=
  if col == "gene_name" then some p.gene_name
  else if col == "gene_id" then some p.gene_id
  else if col == "transcript_name" then some p.transcript_name
  else if col == "transcript_id" then some p.transcript_id
  else none

/-- Outcome of one iteration of the loop at lines 238-261 for one
identifier. -/
inductive IdOutcome where
  | extracted : Region → IdOutcome
  | skippedInvalid : List String → IdOutcome
  | skippedEmptyRegion : IdOutcome
deriving DecidableEq

/-- The body of the per-identifier loop (lines 238-261): classify, look the
kind up in `id_gff3_names` (line 242 - raises KeyError when `decode_id`
returned `None`), validate, pick `primary_isoform` from the principals frame
(`.values[0]`), compute the region, skip when the region is falsy, otherwise
extract. Uncaught Python exceptions are `Except.error` and abort the batch. -/
def process_identifier (annot : List AnnotRecord) (up down : Int)
    (identifier : String) : Except String IdOutcome :=
  match id_gff3_names (decode_id identifier.toList) with
  | none => .error "KeyError: None"
  | some id_column =>
    match validate_identifier annot id_column identifier with
    | .error e => .error e
    | .ok (false, w) => .ok (.skippedInvalid w)
    | .ok (true, _) =>
      match ((principalsOf annot).filter
          (fun p => principalCell p id_column == some identifier)).head? with
      | none => .error "IndexError: primary_isoform"
      | some prow =>
        match do_gff3_stuff
            (annot.filter (fun r => r.transcript_id == prow.transcript_id))
            id_column identifier up down with
        | none => .error "error in do_gff3_stuff"
        | some region =>
          if region.toBool then .ok (.extracted region)
          else .ok .skippedEmptyRegion

/-- The loop over `args.identifiers` (line 238): sequential; an uncaught
exception in one iteration aborts the whole batch, so later identifiers are
not processed. -/
def main_loop (annot : List AnnotRecord) (up down : Int) :
    List String → Except String (List (String × IdOutcome))
  | [] => .ok []
  | identifier :: rest =>
    match process_identifier annot up down identifier with
    | .error e => .error e
    | .ok o =>
      match main_loop annot up down rest with
      | .error e => .error e
      | .ok os => .ok ((identifier, o) :: os)

/-! ## Concrete sample data for witnesses -/

/-- A principal start-codon row on the minus strand (TP53-like). -/
def demoRecord : AnnotRecord :=
  ⟨"chr17", 1000, 1002, "-", "start_codon", "ENSG00000141510", "TP53",
   "ENST00000269305", "TP53-201", some "appris_principal"⟩

/-- A one-row sample annotation. -/
def demoAnnot : List AnnotRecord := [demoRecord]

/-- A start-codon row whose strand field is `.` (neither `+` nor `-`). -/
def demoDotRecord : AnnotRecord :=
  ⟨"chr1", 1000, 1002, ".", "start_codon", "g1", "G1", "t1", "T1",
   some "appris_principal"⟩

/-! ## Helper lemmas -/

theorem principalPairs_of_slice_nil (annot : List AnnotRecord)
    (id_column identifier : String)
    (h : geneSlice annot id_column identifier = []) :
    principalPairs annot id_column identifier = [] := by
  unfold principalPairs
  rw [h]
  rfl

/-- Claim C1: `validate_identifier` returns True exactly when the identifier
slice is non-empty and the deduplicated set of principal start-codon
`(start, end)` pairs has exactly one element; it returns False with the
`no <column> known`, `no principal isoform found`, and
`too many primary isoforms` warnings in the empty-slice, zero-count, and
many-count cases respectively. -/
theorem C1_validate_iff (annot : List AnnotRecord) (id_column identifier : String)
    (hcol : id_column ∈ annotColumns) :
    (validate_identifier annot id_column identifier = .ok (true, []) ↔
      geneSlice annot id_column identifier ≠ [] ∧
      (principalPairs annot id_column identifier).length = 1) ∧
    (geneSlice annot id_column identifier = [] →
      validate_identifier annot id_column identifier =
        .ok (false, ["no " ++ id_column ++ " known by this identifier: " ++ identifier])) ∧
    (geneSlice annot id_column identifier ≠ [] →
      (principalPairs annot id_column identifier).length = 0 →
      validate_identifier annot id_column identifier =
        .ok (false, ["no principal isoform found for " ++ identifier])) ∧
    ((principalPairs annot id_column identifier).length > 1 →
      validate_identifier annot id_column identifier =
        .ok (false, ["too many primary isoforms for " ++ identifier])) := by
  unfold validate_identifier
  rw [if_pos hcol]
  by_cases h1 : (geneSlice annot id_column identifier).length = 0
  · rw [if_pos h1]
    have hslice : geneSlice annot id_column identifier = [] :=
      List.length_eq_zero.mp h1
    have hp : (principalPairs annot id_column identifier).length = 0 := by
      rw [principalPairs_of_slice_nil _ _ _ hslice]
      rfl
    refine ⟨?_, ?_, ?_, ?_⟩
    · constructor
      · intro h
        exact absurd h (by simp)
      · rintro ⟨hne, _⟩
        exact absurd hslice hne
    · intro _
      rfl
    · intro hne _
      exact absurd hslice hne
    · intro hgt
      omega
  · rw [if_neg h1]
    have hne : geneSlice annot id_column identifier ≠ [] := by
      intro hs
      exact h1 (by rw [hs]; rfl)
    by_cases h2 : (principalPairs annot id_column identifier).length = 0
    · rw [if_pos h2]
      refine ⟨?_, ?_, ?_, ?_⟩
      · constructor
        · intro h
          exact absurd h (by simp)
        · rintro ⟨_, hlen⟩
          omega
      · intro hs
        exact absurd hs hne
      · intro _ _
        rfl
      · intro hgt
        omega
    · rw [if_neg h2]
      by_cases h3 : (principalPairs annot id_column identifier).length > 1
      · rw [if_pos h3]
        refine ⟨?_, ?_, ?_, ?_⟩
        · constructor
          · intro h
            exact absurd h (by simp)
          · rintro ⟨_, hlen⟩
            omega
        · intro hs
          exact absurd hs hne
        · intro _ h0
          exact absurd h0 h2
        · intro _
          rfl
      · rw [if_neg h3]
        refine ⟨?_, ?_, ?_, ?_⟩
        · constructor
          · intro _
            exact ⟨hne, by omega⟩
          · intro _
            rfl
        · intro hs
          exact absurd hs hne
        · intro _ h0
          exact absurd h0 h2
        · intro hgt
          exact absurd hgt h3

/-- Witness for C1: on the sample annotation, looking `TP53` up by `gene_name`
validates with no warnings. -/
theorem C1_witness :
    validate_identifier demoAnnot "gene_name" "TP53" = .ok (true, []) :=
  (C1_validate_iff demoAnnot "gene_name" "TP53" (by decide)).1.mpr
    ⟨by decide, by decide⟩

theorem do_gff3_eq_of_head (principal : List AnnotRecord)
    (id_column identifier : String) (up down : Int) (row : AnnotRecord)
    (h : (principal.filter (fun r => r.feature == "start_codon")).head? = some row) :
    do_gff3_stuff principal id_column identifier up down =
      regionFromRow row identifier up down := by
  unfold do_gff3_stuff
  rw [h]

theorem do_gff3_some_spec (principal : List AnnotRecord)
    (id_column identifier : String) (up down : Int) (r : Region)
    (h : do_gff3_stuff principal id_column identifier up down = some r) :
    ∃ row, (principal.filter (fun r => r.feature == "start_codon")).head? = some row ∧
      regionFromRow row identifier up down = some r := by
  unfold do_gff3_stuff at h
  rcases hh : (principal.filter (fun r => r.feature == "start_codon")).head? with _ | row
  · rw [hh] at h
    cases h
  · rw [hh] at h
    exact ⟨row, hh, h⟩

theorem regionFromRow_some (row : AnnotRecord) (identifier : String)
    (up down : Int) (r : Region)
    (h : regionFromRow row identifier up down = some r) :
    (row.strand = "+" ∧
      r = ⟨some row.seqname, some (row.start - up), some (row.start + down),
           some identifier, some ".", some row.strand⟩) ∨
    (row.strand = "-" ∧
      r = ⟨some row.seqname, some (row.start - down), some (row.start + up),
           some identifier, some ".", some row.strand⟩) := by
  unfold regionFromRow at h
  split_ifs at h with h1 h2
  · exact Or.inl ⟨by simpa using h1, (Option.some.inj h).symm⟩
  · exact Or.inr ⟨by simpa using h2, (Option.some.inj h).symm⟩

/-- Claim C2: the strand dispatch of the promoter interval: on `+` the region
is `[CDS - up, CDS + down]`, on `-` it is `[CDS - down, CDS + up]`, where
`CDS` is the `start` of the first start_codon row. -/
theorem C2_region_assignment (principal : List AnnotRecord)
    (id_column identifier : String) (up down : Int) (row : AnnotRecord)
    (h : (principal.filter (fun r => r.feature == "start_codon")).head? = some row) :
    (row.strand = "+" → do_gff3_stuff principal id_column identifier up down =
        some ⟨some row.seqname, some (row.start - up), some (row.start + down),
              some identifier, some ".", some row.strand⟩) ∧
    (row.strand = "-" → do_gff3_stuff principal id_column identifier up down =
        some ⟨some row.seqname, some (row.start - down), some (row.start + up),
              some identifier, some ".", some row.strand⟩) := by
  rw [do_gff3_eq_of_head principal id_column identifier up down row h]
  constructor
  · intro hs
    unfold regionFromRow
    rw [if_pos (by simp [hs])]
  · intro hs
    unfold regionFromRow
    rw [if_neg (by simp [hs]), if_pos (by simp [hs])]

/-- Witness for C2 (spec Example 6): a minus-strand start codon at 1000 with
`upstream = 1000`, `downstream = 500` yields `Region(start=500, end=2000)`. -/
theorem C2_witness :
    do_gff3_stuff [demoRecord] "transcript_id" "TP53" 1000 500 =
      some ⟨some "chr17", some 500, some 2000, some "TP53", some ".", some "-"⟩ :=
  (C2_region_assignment [demoRecord] "transcript_id" "TP53" 1000 500
    demoRecord rfl).2 rfl

/-- Claim C6: on both strands the computed interval satisfies
`end - start = upstream + downstream`. -/
theorem C6_span_invariant (principal : List AnnotRecord)
    (id_column identifier : String) (up down : Int) (r : Region)
    (h : do_gff3_stuff principal id_column identifier up down = some r) :
    ∃ s e : Int, r.start = some s ∧ r.«end» = some e ∧ e - s = up + down := by
  obtain ⟨row, _, hr⟩ := do_gff3_some_spec principal id_column identifier up down r h
  rcases regionFromRow_some row identifier up down r hr with ⟨_, rfl⟩ | ⟨_, rfl⟩
  · exact ⟨row.start - up, row.start + down, rfl, rfl, by ring⟩
  · exact ⟨row.start - down, row.start + up, rfl, rfl, by ring⟩

/-- Witness for C6: the sample minus-strand region spans `1000 + 500`. -/
theorem C6_witness :
    ∃ s e : Int,
      (Region.mk (some "chr17") (some 500) (some 2000) (some "TP53") (some ".")
        (some "-")).start = some s ∧
      (Region.mk (some "chr17") (some 500) (some 2000) (some "TP53") (some ".")
        (some "-")).«end» = some e ∧ e - s = 1000 + 500 :=
  C6_span_invariant [demoRecord] "transcript_id" "TP53" 1000 500
    (Region.mk (some "chr17") (some 500) (some 2000) (some "TP53") (some ".")
      (some "-")) rfl

/-- Claim C9: when the first start_codon row's strand is neither `+` nor `-`,
`do_gff3_stuff` raises (its interval bounds are never assigned) instead of
returning a Region. -/
theorem C9_strand_guard (principal : List AnnotRecord)
    (id_column identifier : String) (up down : Int) (row : AnnotRecord)
    (h : (principal.filter (fun r => r.feature == "start_codon")).head? = some row)
    (hp : row.strand ≠ "+") (hm : row.strand ≠ "-") :
    do_gff3_stuff principal id_column identifier up down = none := by
  rw [do_gff3_eq_of_head principal id_column identifier up down row h]
  unfold regionFromRow
  rw [if_neg (by simpa using hp), if_neg (by simpa using hm)]

/-- Witness for C9: a start-codon row with strand `.` produces no Region. -/
theorem C9_witness :
    do_gff3_stuff [demoDotRecord] "transcript_id" "G1" 1000 500 = none :=
  C9_strand_guard [demoDotRecord] "transcript_id" "G1" 1000 500 demoDotRecord
    rfl (by decide) (by decide)

/-- Counterexample to claim C8: with NONNEGATIVE upstream and downstream no
computed Region ever has `start > end`, on either strand — on `-` the interval
is `[CDS - down, CDS + up]`, which is ordered whenever `up + down ≥ 0`. -/
theorem C8_counterexample :
    ¬ ∃ (principal : List AnnotRecord) (id_column identifier : String)
        (up down : Int) (r : Region) (s e : Int),
        0 ≤ up ∧ 0 ≤ down ∧ up ≠ down ∧
        do_gff3_stuff principal id_column identifier up down = some r ∧
        r.start = some s ∧ r.«end» = some e ∧ e < s := by
  rintro ⟨principal, id_column, identifier, up, down, r, s, e, hu, hd, hne,
    hdo, hs, he, hlt⟩
  obtain ⟨row, _, hr⟩ := do_gff3_some_spec principal id_column identifier up down r hdo
  rcases regionFromRow_some row identifier up down r hr with ⟨_, rfl⟩ | ⟨_, rfl⟩
  · have hs' : some (row.start - up) = some s := hs
    have he' : some (row.start + down) = some e := he
    obtain rfl := Option.some.inj hs'
    obtain rfl := Option.some.inj he'
    omega
  · have hs' : some (row.start - down) = some s := hs
    have he' : some (row.start + up) = some e := he
    obtain rfl := Option.some.inj hs'
    obtain rfl := Option.some.inj he'
    omega

/-- Amended C8: an order-inverted interval (`start > end`) does occur on the
minus strand, but only when negative offsets make `upstream + downstream < 0`
(here `upstream = -1000`, `downstream = 500`). -/
theorem C8_amended_negative_offsets :
    ∃ (rec : AnnotRecord) (up down : Int) (r : Region) (s e : Int),
      rec.strand = "-" ∧ rec.feature = "start_codon" ∧ up ≠ down ∧
      do_gff3_stuff [rec] "transcript_id" "TP53" up down = some r ∧
      r.start = some s ∧ r.«end» = some e ∧ e < s :=
  ⟨demoRecord, -1000, 500,
   ⟨some "chr17", some 500, some 0, some "TP53", some ".", some "-"⟩,
   500, 0, rfl, rfl, by decide, by decide, rfl, rfl, by decide⟩

theorem toBool_of_score (r : Region) (h : r.score = some ".") :
    r.toBool = true := by
  have hs : truthyStr r.score = true := by
    rw [h]
    decide
  unfold Region.toBool
  rw [hs]
  simp

/-- Claim C10: every Region built by `do_gff3_stuff` carries `score = '.'` and
is therefore truthy, so the empty-Region skip branch of the main loop is never
taken. -/
theorem C10_region_truthy :
    (∀ (principal : List AnnotRecord) (id_column identifier : String)
        (up down : Int) (r : Region),
        do_gff3_stuff principal id_column identifier up down = some r →
        r.score = some "." ∧ r.toBool = true) ∧
    (∀ (annot : List AnnotRecord) (up down : Int) (identifier : String),
        process_identifier annot up down identifier ≠
          .ok .skippedEmptyRegion) := by
  have hscore : ∀ (principal : List AnnotRecord) (id_column identifier : String)
      (up down : Int) (r : Region),
      do_gff3_stuff principal id_column identifier up down = some r →
      r.score = some "." ∧ r.toBool = true := by
    intro principal id_column identifier up down r h
    obtain ⟨row, _, hr⟩ :=
      do_gff3_some_spec principal id_column identifier up down r h
    rcases regionFromRow_some row identifier up down r hr with ⟨_, rfl⟩ | ⟨_, rfl⟩ <;>
      exact ⟨rfl, toBool_of_score _ rfl⟩
  refine ⟨hscore, ?_⟩
  intro annot up down identifier hcontra
  unfold process_identifier at hcontra
  split at hcontra
  · simp at hcontra
  · split at hcontra
    · simp at hcontra
    · simp at hcontra
    · split at hcontra
      · simp at hcontra
      · split at hcontra
        · simp at hcontra
        · split at hcontra
          · simp at hcontra
          · rename_i region h4 hcond
            exact hcond ((hscore _ _ _ _ _ _ h4).2)

/-- Witness for C10: the sample Region computed for TP53 is truthy. -/
theorem C10_witness :
    (Region.mk (some "chr17") (some 500) (some 2000) (some "TP53") (some ".")
      (some "-")).toBool = true :=
  (C10_region_truthy.1 [demoRecord] "transcript_id" "TP53" 1000 500
    (Region.mk (some "chr17") (some 500) (some 2000) (some "TP53") (some ".")
      (some "-")) rfl).2

theorem matchENST_of_matchENSG (cs : List Char) (h : matchENSG cs = true) :
    matchENST cs = false := by
  rcases cs with _ | ⟨a, _ | ⟨b, _ | ⟨c, _ | ⟨d, rest⟩⟩⟩⟩ <;>
    simp_all [matchENST, matchENSG]

theorem matchExcl_of_matchUCSC (cs : List Char) (h : matchUCSC cs = true) :
    matchENST cs = false ∧ matchENSG cs = false := by
  rcases cs with _ | ⟨c1, _ | ⟨c2, _ | ⟨c3, _ | ⟨c4, _ | ⟨c5, _ | ⟨c6, _ | ⟨c7,
    _ | ⟨c8, _ | ⟨c9, rest⟩⟩⟩⟩⟩⟩⟩⟩⟩ <;>
    simp_all [matchENST, matchENSG, matchUCSC]

theorem matchExcl_of_matchREFSEQ (cs : List Char) (h : matchREFSEQ cs = true) :
    matchENST cs = false ∧ matchENSG cs = false ∧ matchUCSC cs = false := by
  rcases cs with _ | ⟨c1, _ | ⟨c2, _ | ⟨c3, _ | ⟨c4, _ | ⟨c5, _ | ⟨c6, _ | ⟨c7,
    _ | ⟨c8, _ | ⟨c9, rest⟩⟩⟩⟩⟩⟩⟩⟩⟩ <;>
    simp_all [matchENST, matchENSG, matchUCSC, matchREFSEQ]

/-- Claim C3: the five patterns are applied in fixed order with first match
winning: each of the four anchored patterns forces its own kind (they are
mutually exclusive), and SYMBOL is returned exactly when the SYMBOL pattern
matches and none of the first four do. -/
theorem C3_decode_order (cs : List Char) :
    (matchENST cs = true → decode_id cs = some ENST) ∧
    (matchENSG cs = true → decode_id cs = some ENSG) ∧
    (matchUCSC cs = true → decode_id cs = some UCSC) ∧
    (matchREFSEQ cs = true → decode_id cs = some REFSEQ) ∧
    (decode_id cs = some SYMBOL ↔
      matchSYMBOL cs = true ∧ matchENST cs = false ∧ matchENSG cs = false ∧
      matchUCSC cs = false ∧ matchREFSEQ cs = false) := by
  refine ⟨?_, ?_, ?_, ?_, ?_⟩
  · intro h
    simp [decode_id, h]
  · intro h
    simp [decode_id, h, matchENST_of_matchENSG cs h]
  · intro h
    obtain ⟨h1, h2⟩ := matchExcl_of_matchUCSC cs h
    simp [decode_id, h, h1, h2]
  · intro h
    obtain ⟨h1, h2, h3⟩ := matchExcl_of_matchREFSEQ cs h
    simp [decode_id, h, h1, h2, h3]
  · constructor
    · intro h
      unfold decode_id at h
      split_ifs at h with h1 h2 h3 h4 h5
      · simp [ENST, SYMBOL] at h
      · simp [ENSG, SYMBOL] at h
      · simp [UCSC, SYMBOL] at h
      · simp [REFSEQ, SYMBOL] at h
      · exact ⟨h5, by simpa using h1, by simpa using h2, by simpa using h3,
          by simpa using h4⟩
    · rintro ⟨hS, h1, h2, h3, h4⟩
      simp [decode_id, hS, h1, h2, h3, h4]

/-- Witness for C3 (spec Example 1): `ENST00000380152` classifies as an
Ensembl transcript. -/
theorem C3_witness : decode_id "ENST00000380152".toList = some ENST :=
  (C3_decode_order "ENST00000380152".toList).1 (by decide)

theorem matchSYMBOL_cons_cons (x y : Char) (ys : List Char) :
    matchSYMBOL (x :: y :: ys) =
      ((symStart x && y.isAlphanum) || matchSYMBOL (y :: ys)) := rfl

theorem matchSYMBOL_iff (cs : List Char) :
    matchSYMBOL cs = true ↔
      ∃ pre a b post, cs = pre ++ a :: b :: post ∧ symStart a = true ∧
        b.isAlphanum = true := by
  induction cs with
  | nil =>
      constructor
      · intro h
        simp [matchSYMBOL] at h
      · rintro ⟨pre, a, b, post, hpre, _, _⟩
        exact absurd hpre.symm (by simp)
  | cons x xs ih =>
      cases xs with
      | nil =>
          constructor
          · intro h
            simp [matchSYMBOL] at h
          · rintro ⟨pre, a, b, post, hpre, _, _⟩
            have hlen := congrArg List.length hpre
            simp [List.length_append] at hlen
            omega
      | cons y ys =>
          rw [matchSYMBOL_cons_cons]
          constructor
          · intro h
            rcases (Bool.or_eq_true _ _).mp h with h' | h'
            · obtain ⟨ha, hb⟩ := Bool.and_eq_true_iff.mp h'
              exact ⟨[], x, y, ys, rfl, ha, hb⟩
            · obtain ⟨pre, a, b, post, hpre, ha, hb⟩ := ih.mp h'
              exact ⟨x :: pre, a, b, post, by rw [hpre]; rfl, ha, hb⟩
          · rintro ⟨pre, a, b, post, hpre, ha, hb⟩
            cases pre with
            | nil =>
                simp only [List.nil_append, List.cons.injEq] at hpre
                obtain ⟨rfl, rfl, rfl⟩ := hpre
                simp [ha, hb]
            | cons p ps =>
                have hx : x = p ∧ y :: ys = ps ++ a :: b :: post := by
                  simpa using hpre
                apply (Bool.or_eq_true _ _).mpr
                exact Or.inr (ih.mpr ⟨ps, a, b, post, hx.2, ha, hb⟩)

/-- Counterexample to claim C7: the SYMBOL pattern is matched with an
UNANCHORED `re.search`, so `aXY` — which does not begin with an uppercase
letter or digit — still classifies as Symbol (the pair `XY` matches at
position 1), refuting the begins-with iff. -/
theorem C7_counterexample :
    matchENST "aXY".toList = false ∧ matchENSG "aXY".toList = false ∧
    matchUCSC "aXY".toList = false ∧ matchREFSEQ "aXY".toList = false ∧
    decode_id "aXY".toList = some SYMBOL ∧
    specSymbolAnchored "aXY".toList = false := by
  decide

/-- Amended C7: when none of the first four patterns match, classification
returns Symbol iff the identifier CONTAINS, at any position, an uppercase
letter or digit immediately followed by an alphanumeric character (the
search is unanchored); `TP53` classifies as Symbol with lookup column
`gene_name`. -/
theorem C7_amended_unanchored :
    (∀ cs : List Char, matchENST cs = false → matchENSG cs = false →
      matchUCSC cs = false → matchREFSEQ cs = false →
      (decode_id cs = some SYMBOL ↔
        ∃ pre a b post, cs = pre ++ a :: b :: post ∧ symStart a = true ∧
          b.isAlphanum = true)) ∧
    decode_id "TP53".toList = some SYMBOL ∧
    id_gff3_names (decode_id "TP53".toList) = some "gene_name" := by
  refine ⟨?_, by decide, by decide⟩
  intro cs h1 h2 h3 h4
  rw [← matchSYMBOL_iff]
  by_cases hS : matchSYMBOL cs = true
  · simp [decode_id, h1, h2, h3, h4, hS]
  · have hS' : matchSYMBOL cs = false := by simpa using hS
    simp [decode_id, h1, h2, h3, h4, hS']

/-- Witness for C7: the amended iff applied to `TP53`, whose pair `TP` occurs
at position 0. -/
theorem C7_witness : decode_id "TP53".toList = some SYMBOL :=
  (C7_amended_unanchored.1 "TP53".toList (by decide) (by decide) (by decide)
    (by decide)).mpr ⟨[], 'T', 'P', ['5', '3'], rfl, by decide, by decide⟩

/-- Claim C4, evaluated at the failing input: for the unrecognised identifier
`???`, `decode_id` warns and returns `None`, but line 242 then evaluates
`id_gff3_names[id_type]` with `id_type = None` BEFORE the `if id_type:` guard,
raising KeyError and aborting the whole batch — the later identifier `TP53`
(which alone processes fine, third conjunct) is never reached, contradicting
the claimed warn-skip-continue behaviour. -/
theorem C4_unknown_id_aborts :
    decode_id "???".toList = none ∧
    main_loop demoAnnot 1000 500 ["???", "TP53"] = .error "KeyError: None" ∧
    process_identifier demoAnnot 1000 500 "TP53" =
      .ok (.extracted ⟨some "chr17", some 500, some 2000, some "TP53",
        some ".", some "-"⟩) := by
  refine ⟨by decide, ?_, ?_⟩ <;> rfl

/-- Counterexample to claim C5: the RefSeq identifier `NM_000546` maps to the
placeholder lookup column `TBD`, which is not a column of the annotation
dataframe, so the slice raises a pandas KeyError — the run aborts instead of
`validate` returning False with a warning. -/
theorem C5_counterexample :
    decode_id "NM_000546".toList = some REFSEQ ∧
    id_gff3_names (decode_id "NM_000546".toList) = some "TBD" ∧
    validate_identifier demoAnnot "TBD" "NM_000546" = .error "KeyError: TBD" ∧
    ¬ ∃ w, validate_identifier demoAnnot "TBD" "NM_000546" = .ok (false, w) := by
  refine ⟨by decide, by decide, rfl, ?_⟩
  rintro ⟨w, hw⟩
  rw [show validate_identifier demoAnnot "TBD" "NM_000546" =
    .error "KeyError: TBD" from rfl] at hw
  cases hw

/-- Amended C5: UCSC and RefSeq kinds map to the placeholder column `TBD`;
since the annotation has no such column, every lookup attempted with it
raises a KeyError that aborts the run — it neither succeeds nor returns
False. -/
theorem C5_amended_tbd_keyerror (k : Nat) (hk : k = UCSC ∨ k = REFSEQ) :
    id_gff3_names (some k) = some "TBD" ∧
    ∀ (annot : List AnnotRecord) (identifier : String),
      validate_identifier annot "TBD" identifier = .error "KeyError: TBD" := by
  constructor
  · rcases hk with rfl | rfl <;> decide
  · intro annot identifier
    unfold validate_identifier
    rw [if_neg (by decide)]
    rfl

/-- Witness for C5: the `TBD` lookup aborts for a UCSC-style identifier on
the sample annotation. -/
theorem C5_witness :
    validate_identifier demoAnnot "TBD" "uc001aaa.3" = .error "KeyError: TBD" :=
  (C5_amended_tbd_keyerror UCSC (Or.inl rfl)).2 demoAnnot "uc001aaa.3"
